import Mathlib

/-!
Verification of the pyrite64 collision engine against its specification.

The definitions below are a shallow embedding of the collision code
(`n64/engine/src/collision/mesh.cpp`, `bvh.cpp`, `attach.cpp` and the
headers they use).  Machine floats are modelled by exact rationals; the
square root used by the edge test is modelled by `sqrtQ`, which agrees
with the real square root on perfect squares (all concrete evaluations
below happen there).  Types whose headers are not part of the sources
(`shapes.h`, `mesh.h`, `bvh.h`, the object transform) are modelled from
the specification and marked as such.
-/

namespace P64

/-- 3-component vector over exact rationals, embedding `fm_vec3_t`. -/
structure Vec3 where
  x : ℚ
  y : ℚ
  z : ℚ
deriving DecidableEq, Repr

namespace Vec3

def zero : Vec3 := ⟨0, 0, 0⟩

def add (a b : Vec3) : Vec3 := ⟨a.x + b.x, a.y + b.y, a.z + b.z⟩

def sub (a b : Vec3) : Vec3 := ⟨a.x - b.x, a.y - b.y, a.z - b.z⟩

def neg (a : Vec3) : Vec3 := ⟨-a.x, -a.y, -a.z⟩

/-- Componentwise product (`fm_vec3_t * fm_vec3_t`). -/
def mulV (a b : Vec3) : Vec3 := ⟨a.x * b.x, a.y * b.y, a.z * b.z⟩

/-- Vector times scalar (`fm_vec3_t * float`). -/
def smul (a : Vec3) (s : ℚ) : Vec3 := ⟨a.x * s, a.y * s, a.z * s⟩

/-- Vector divided by scalar (`fm_vec3_t / float`). -/
def divS (a : Vec3) (s : ℚ) : Vec3 := ⟨a.x / s, a.y / s, a.z / s⟩

/-- `t3d_vec3_dot`. -/
def dot (a b : Vec3) : ℚ := a.x * b.x + a.y * b.y + a.z * b.z

/-- `t3d_vec3_cross` / `Math::cross`. -/
def cross (a b : Vec3) : Vec3 :=
  ⟨a.y * b.z - a.z * b.y, a.z * b.x - a.x * b.z, a.x * b.y - a.y * b.x⟩

/-- `Math::abs`: componentwise absolute value. -/
def abs3 (a : Vec3) : Vec3 := ⟨|a.x|, |a.y|, |a.z|⟩

/-- `Math::sign`: componentwise sign. -/
def sign3 (a : Vec3) : Vec3 :=
  ⟨if a.x < 0 then -1 else if a.x > 0 then 1 else 0,
   if a.y < 0 then -1 else if a.y > 0 then 1 else 0,
   if a.z < 0 then -1 else if a.z > 0 then 1 else 0⟩

/-- `Math::min` on a vector: least component. -/
def min3 (a : Vec3) : ℚ := min a.x (min a.y a.z)

/-- `Math::max` on a vector: greatest component. -/
def max3 (a : Vec3) : ℚ := max a.x (max a.y a.z)

instance : Add Vec3 := ⟨add⟩

instance : Sub Vec3 := ⟨sub⟩

instance : Neg Vec3 := ⟨neg⟩

theorem add_def (a b : Vec3) : a + b = ⟨a.x + b.x, a.y + b.y, a.z + b.z⟩ := rfl

theorem sub_def (a b : Vec3) : a - b = ⟨a.x - b.x, a.y - b.y, a.z - b.z⟩ := rfl

theorem neg_def (a : Vec3) : -a = ⟨-a.x, -a.y, -a.z⟩ := rfl

end Vec3

/-- 2-component vector over exact rationals, embedding `fm_vec2_t`. -/
structure Vec2 where
  x : ℚ
  y : ℚ
deriving DecidableEq, Repr

/-- `fm_vec2_dot`. -/
def Vec2.dot (a b : Vec2) : ℚ := a.x * b.x + a.y * b.y

/-- Downward linear search for the natural square root (structurally
recursive so that concrete evaluations unfold). -/
def sqrtAux (n : ℕ) : ℕ → ℕ
  | 0 => 0
  | k + 1 => if (k + 1) * (k + 1) ≤ n then k + 1 else sqrtAux n k

/-- Natural square root: greatest `k ≤ n` with `k * k ≤ n`. -/
def natSqrt (n : ℕ) : ℕ := sqrtAux n n

/-- Rational model of `sqrtf`: exact whenever the reduced numerator and
denominator are perfect squares (all concrete evaluations in this file
are), unspecified junk elsewhere. -/
def sqrtQ (q : ℚ) : ℚ := (natSqrt q.num.toNat : ℚ) / (natSqrt q.den : ℚ)

theorem sqrtQ_zero : sqrtQ 0 = 0 := by
  simp [sqrtQ, natSqrt, sqrtAux]

theorem sqrtQ_one : sqrtQ 1 = 1 := by
  simp [sqrtQ, natSqrt, sqrtAux]

/-- `t3d_vec3_len`. -/
def Vec3.len (a : Vec3) : ℚ := sqrtQ (Vec3.dot a a)

/-- `t3d_vec3_distance2`: squared distance. -/
def Vec3.distance2 (a b : Vec3) : ℚ := Vec3.dot (a - b) (a - b)

/-- `MIN_PENETRATION` from mesh.cpp. -/
def MIN_PENETRATION : ℚ := 1 / 10000

/-- The anonymous-namespace `clamp` from mesh.cpp
(`fminf(fmaxf(x, min), max)`). -/
def clamp (x lo hi : ℚ) : ℚ := min (max x lo) hi

def unitAxis0 : Vec3 := ⟨1, 0, 0⟩

def unitAxis1 : Vec3 := ⟨0, 1, 0⟩

def unitAxis2 : Vec3 := ⟨0, 0, 1⟩

/-- Modelled from the spec (`shapes.h` is not among the sources): a
Bounding Collision Shape has a center, a sphere radius and box
half-extents; `getRadius()` is the `radius` field. -/
structure BCS where
  center : Vec3
  radius : ℚ
  halfExtend : Vec3
deriving DecidableEq, Repr

/-- Modelled from the spec (`mesh.h` is not among the sources): a triangle
is three vertex positions plus a precomputed face normal.  The source
stores pointers to the vertices; the embedding stores the pointed-to
values. -/
structure Triangle where
  v0 : Vec3
  v1 : Vec3
  v2 : Vec3
  normal : Vec3
deriving DecidableEq, Repr

/-- Modelled from the spec (`mesh.h` is not among the sources): resolver
output, value-initialized to all zeroes as in `{.collCount = 0}`. -/
structure CollInfo where
  penetration : Vec3 := Vec3.zero
  floorWallAngle : Vec3 := Vec3.zero
  collCount : ℕ := 0
deriving DecidableEq, Repr

/-- Modelled from the spec (`mesh.h` is not among the sources): raycast
output; the value-initialized record (all zeroes) signals "no hit". -/
structure RaycastRes where
  hitPos : Vec3 := Vec3.zero
  normal : Vec3 := Vec3.zero
deriving DecidableEq, Repr

/-- `pointPlaneDistance` from mesh.cpp. -/
def pointPlaneDistance (p planePos planeNorm : Vec3) : ℚ :=
  Vec3.dot (p - planePos) planeNorm

/-- Denominator of the barycentric computation in `getTriBaryCoord`. -/
def baryDenom (a b c : Vec3) : ℚ :=
  let v0 := c - a
  let v1 := b - a
  let dot00 := Vec3.dot v0 v0
  let dot01 := Vec3.dot v0 v1
  let dot11 := Vec3.dot v1 v1
  dot00 * dot11 - dot01 * dot01

/-- `getTriBaryCoord` from mesh.cpp. -/
def getTriBaryCoord (p a b c : Vec3) : Vec3 :=
  let v0 := c - a
  let v1 := b - a
  let v2 := p - a
  let dot00 := Vec3.dot v0 v0
  let dot01 := Vec3.dot v0 v1
  let dot11 := Vec3.dot v1 v1
  let denom := dot00 * dot11 - dot01 * dot01
  if denom = 0 then ⟨-1, -1, -1⟩
  else
    let dot02 := Vec3.dot v0 v2
    let dot12 := Vec3.dot v1 v2
    let invDenom := 1 / denom
    let u := (dot11 * dot02 - dot01 * dot12) * invDenom
    let v := (dot00 * dot12 - dot01 * dot02) * invDenom
    ⟨1 - u - v, v, u⟩

/-- `closestPointOnLine` from mesh.cpp. -/
def closestPointOnLine (p a b : Vec3) : Vec3 :=
  let lineVec := b - a
  let length := Vec3.len lineVec
  if length < MIN_PENETRATION then a
  else
    let pointToA := p - a
    let lineDir := Vec3.divS lineVec length
    let pointDist := Vec3.dot pointToA lineDir
    a + Vec3.smul lineDir (clamp pointDist 0 length)

/-- The effective distance `planeDistAbs` computed by `triVsSphere`:
`planeDist < 0.0f ? fabsf(planeDist*2.0f) : planeDist`. -/
def planeDistEff (planeDist : ℚ) : ℚ :=
  if planeDist < 0 then |planeDist * 2| else planeDist

/-- Edge-test portion of `triVsSphere` (the code after the face test). -/
def triVsSphereEdge (sphere : BCS) (face : Triangle) : CollInfo :=
  let bcsPos := sphere.center
  let closestPoint1 := closestPointOnLine bcsPos face.v0 face.v1
  let closestPoint2 := closestPointOnLine bcsPos face.v1 face.v2
  let closestPoint3 := closestPointOnLine bcsPos face.v2 face.v0
  let closestDist1 := Vec3.distance2 bcsPos closestPoint1
  let closestDist2 := Vec3.distance2 bcsPos closestPoint2
  let closestDist3 := Vec3.distance2 bcsPos closestPoint3
  let closestDist := min closestDist1 (min closestDist2 closestDist3)
  if closestDist ≤ sphere.radius * sphere.radius then
    let contactPoint :=
      if closestDist = closestDist1 then closestPoint1
      else if closestDist = closestDist2 then closestPoint2
      else closestPoint3
    let penVector := contactPoint - bcsPos
    let faceDirAngle := Vec3.dot penVector face.normal
    if faceDirAngle > 0 then { collCount := 0 }
    else
      let penLen := Vec3.len penVector
      let penVectorNorm :=
        Vec3.smul (Vec3.divS penVector penLen) (max (sphere.radius - penLen) 0)
      { penetration := penVectorNorm, floorWallAngle := face.normal, collCount := 1 }
  else { collCount := 0 }

/-- `triVsSphere` from mesh.cpp: face test, falling through to the edge
test when the center is not over the triangle interior. -/
def triVsSphere (sphere : BCS) (face : Triangle) : CollInfo :=
  let bcsPos := sphere.center
  let planeDist := pointPlaneDistance bcsPos face.v0 face.normal
  let planeDistAbs := planeDistEff planeDist
  let baryPos := getTriBaryCoord bcsPos face.v0 face.v1 face.v2
  if planeDistAbs < sphere.radius ∧
      baryPos.x ≥ 0 ∧ baryPos.y ≥ 0 ∧ baryPos.x + baryPos.y ≤ 1 then
    { penetration := Vec3.smul face.normal (planeDist - sphere.radius),
      floorWallAngle := face.normal,
      collCount := 1 }
  else triVsSphereEdge sphere face

/-- The skip condition of `testAxis` inside `triVsBox`:
`(satAxis.x + satAxis.y + satAxis.z) == 0.0f`. -/
def satAxisSkipped (satAxis : Vec3) : Bool :=
  satAxis.x + satAxis.y + satAxis.z = 0

/-- The overlap depth computed by `testAxis` inside `triVsBox` for one
candidate axis (vertices already translated into box-local space). -/
def satAxisOverlap (box : BCS) (w0 w1 w2 satAxis : Vec3) : ℚ :=
  let points : Vec3 := ⟨Vec3.dot w0 satAxis, Vec3.dot w1 satAxis, Vec3.dot w2 satAxis⟩
  let combiExtend := Vec3.mulV box.halfExtend (Vec3.abs3 satAxis)
  let r := combiExtend.x + combiExtend.y + combiExtend.z
  let pMin := Vec3.min3 points
  let pMax := Vec3.max3 points
  r - max (-pMax) pMin

/-- One `testAxis` call of `triVsBox`: `none` means a separating axis was
found (the lambda returned `false`), `some st` carries the running
(smallest overlap, axis) state. -/
def satTestAxis (box : BCS) (w0 w1 w2 satAxis : Vec3) (st : ℚ × Vec3) :
    Option (ℚ × Vec3) :=
  if satAxisSkipped satAxis then some st
  else
    let points : Vec3 := ⟨Vec3.dot w0 satAxis, Vec3.dot w1 satAxis, Vec3.dot w2 satAxis⟩
    let overlap := satAxisOverlap box w0 w1 w2 satAxis
    if overlap > 0 then
      if overlap < st.1 then some (overlap, Vec3.mulV satAxis (Vec3.sign3 points))
      else some st
    else none

/-- The short-circuiting `&&` chain of `testAxis` calls in `triVsBox`. -/
def satFold (box : BCS) (w0 w1 w2 : Vec3) :
    List Vec3 → ℚ × Vec3 → Option (ℚ × Vec3)
  | [], st => some st
  | a :: rest, st =>
    match satTestAxis box w0 w1 w2 a st with
    | none => none
    | some st' => satFold box w0 w1 w2 rest st'

/-- The candidate axes of `triVsBox`, in the exact order of the source's
`&&` chain.  Note the source tests `cross(unitAxis2, edge2)` in the slot
between `cross(unitAxis1, edge1)` and `cross(unitAxis2, edge0)` (and
again at the end); `cross(unitAxis1, edge2)` is never tested. -/
def triVsBoxAxes (w0 w1 w2 normal : Vec3) : List Vec3 :=
  let edge0 := w1 - w0
  let edge1 := w2 - w1
  let edge2 := w0 - w2
  [unitAxis0, unitAxis1, unitAxis2,
   normal,
   Vec3.cross unitAxis0 edge0, Vec3.cross unitAxis0 edge1, Vec3.cross unitAxis0 edge2,
   Vec3.cross unitAxis1 edge0, Vec3.cross unitAxis1 edge1,
   Vec3.cross unitAxis2 edge2,
   Vec3.cross unitAxis2 edge0, Vec3.cross unitAxis2 edge1, Vec3.cross unitAxis2 edge2]

/-- `triVsBox` from mesh.cpp. -/
def triVsBox (box : BCS) (face : Triangle) : CollInfo :=
  let w0 := face.v0 - box.center
  let w1 := face.v1 - box.center
  let w2 := face.v2 - box.center
  match satFold box w0 w1 w2 (triVsBoxAxes w0 w1 w2 face.normal) (999999, Vec3.zero) with
  | some (distance, lastAxis) =>
    { penetration := Vec3.smul lastAxis distance,
      floorWallAngle := face.normal,
      collCount := 1 }
  | none => {}

/-- `pointVsTriangle2D` from mesh.cpp: three half-plane sign checks that
must agree. -/
def pointVsTriangle2D (p t0 t1 t2 : Vec2) : Bool :=
  let b0 := decide (Vec2.dot ⟨p.x - t0.x, p.y - t0.y⟩ ⟨t0.y - t1.y, t1.x - t0.x⟩ > 0)
  let b1 := decide (Vec2.dot ⟨p.x - t1.x, p.y - t1.y⟩ ⟨t1.y - t2.y, t2.x - t1.x⟩ > 0)
  let b2 := decide (Vec2.dot ⟨p.x - t2.x, p.y - t2.y⟩ ⟨t2.y - t0.y, t0.x - t2.x⟩ > 0)
  b0 = b1 && b1 = b2

/-- `getTrianglePosFromXZ` from mesh.cpp: solves the plane equation at the
point's (x,z), dividing by `normal.y` with no guard. -/
def getTrianglePosFromXZ (pos vert normal : Vec3) : Vec3 :=
  let t := (Vec3.dot normal pos - Vec3.dot normal vert) / normal.y
  pos + ⟨0, -t, 0⟩

/-- `Mesh::vsFloorRay` from mesh.cpp. -/
def vsFloorRay (rayStart : Vec3) (face : Triangle) : RaycastRes :=
  let tri0 : Vec2 := ⟨face.v0.x, face.v0.z⟩
  let tri1 : Vec2 := ⟨face.v1.x, face.v1.z⟩
  let tri2 : Vec2 := ⟨face.v2.x, face.v2.z⟩
  if ¬ pointVsTriangle2D ⟨rayStart.x, rayStart.z⟩ tri0 tri1 tri2 then {}
  else
    let hitPos := getTrianglePosFromXZ rayStart face.v0 face.normal
    if hitPos.y > rayStart.y then {}
    else { hitPos := hitPos, normal := face.normal }

/-- Spec-side definition (for C6): the height over (x,z) obtained by
solving the triangle's plane equation `normal · (p − v0) = 0` for the y
coordinate. -/
def planeHeightAt (normal v0 : Vec3) (x z : ℚ) : ℚ :=
  (Vec3.dot normal v0 - normal.x * x - normal.z * z) / normal.y

/-! ### Geometry index (bvh.cpp) -/

/-- Integer 3-vector (`IVec3`), used for quantized AABBs and the floor
ray position. -/
structure IVec3 where
  x : ℤ
  y : ℤ
  z : ℤ
deriving DecidableEq, Repr

/-- Axis-aligned bounding box with quantized integer bounds (the node
records print `aabbMin[0..2]` / `aabbMax[0..2]` in the loader's debug
dump). -/
structure AABB where
  aabbMin : IVec3
  aabbMax : IVec3
deriving DecidableEq, Repr

/-- Modelled from the spec (`bvh.h` is not among the sources):
`AABB::vsAABB` is simple per-axis interval overlap. -/
def AABB.vsAABB (a b : AABB) : Bool :=
  decide (a.aabbMin.x ≤ b.aabbMax.x ∧ b.aabbMin.x ≤ a.aabbMax.x ∧
          a.aabbMin.y ≤ b.aabbMax.y ∧ b.aabbMin.y ≤ a.aabbMax.y ∧
          a.aabbMin.z ≤ b.aabbMax.z ∧ b.aabbMin.z ≤ a.aabbMax.z)

/-- Modelled from the spec (`bvh.h` is not among the sources):
`AABB::vs2DPointY` tests 2D horizontal containment of the point's (x,z)
in the box's horizontal extent, ignoring height. -/
def AABB.vs2DPointY (a : AABB) (p : IVec3) : Bool :=
  decide (a.aabbMin.x ≤ p.x ∧ p.x ≤ a.aabbMax.x ∧
          a.aabbMin.z ≤ p.z ∧ p.z ≤ a.aabbMax.z)

/-- One box contains another (used to state index well-formedness). -/
def AABB.contains (a b : AABB) : Bool :=
  decide (a.aabbMin.x ≤ b.aabbMin.x ∧ b.aabbMax.x ≤ a.aabbMax.x ∧
          a.aabbMin.y ≤ b.aabbMin.y ∧ b.aabbMax.y ≤ a.aabbMax.y ∧
          a.aabbMin.z ≤ b.aabbMin.z ∧ b.aabbMax.z ≤ a.aabbMax.z)

/-- A geometry-index node: the packed `value` field (signed 16-bit in the
source, embedded as the signed integer it denotes) plus the node AABB. -/
structure BVHNode where
  value : ℤ
  aabb : AABB
deriving DecidableEq, Repr

/-- `node->value & 0b1111`: the leaf data count (0 = internal node). -/
def nodeDataCount (v : ℤ) : ℕ := (v.emod 16).toNat

/-- `(int16_t)node->value >> 4`: the signed relative child/data offset
(arithmetic shift, i.e. floor division by 16). -/
def nodeOffset (v : ℤ) : ℤ := (v - v.emod 16) / 16

/-- Fetch a node by (possibly negative) index; out-of-range reads —
which the C code would perform blindly — are modelled as `none`. -/
def nodeAt (nodes : List BVHNode) (i : ℤ) : Option BVHNode :=
  if i < 0 then none else nodes.get? i.toNat

/-- Read `ctxData[j]`; out-of-range reads are modelled as 0. -/
def dataAt (data : List ℤ) (j : ℤ) : ℤ :=
  if j < 0 then 0 else (data.get? j.toNat).getD 0

/-- The leaf loop of both query functions:
`while(offset < offsetEnd && ctxRes->count < MAX_RESULT_COUNT)
   ctxRes->triIndex[ctxRes->count++] = ctxData[offset++];`
The result buffer is embedded as the filled prefix (its length is the
count). -/
def leafAppend (maxR : ℕ) (data : List ℤ) : ℕ → ℤ → List ℤ → List ℤ
  | 0, _, res => res
  | n + 1, off, res =>
    if res.length < maxR then
      leafAppend maxR data n (off + 1) (res ++ [dataAt data off])
    else res

/-- The recursive traversal shared by `queryNodeAABB` and
`queryNodeRaycastFloor` (they differ only in the node test); the query
context that the source keeps in module globals is passed explicitly.
`fuel` bounds the recursion depth (the C code recurses unboundedly on
malformed data). -/
def queryNode (maxR : ℕ) (nodes : List BVHNode) (data : List ℤ)
    (hit : AABB → Bool) : ℕ → ℤ → List ℤ → List ℤ
  | 0, _, res => res
  | fuel + 1, i, res =>
    match nodeAt nodes i with
    | none => res
    | some nd =>
      if hit nd.aabb then
        if nodeDataCount nd.value = 0 then
          queryNode maxR nodes data hit fuel (i + nodeOffset nd.value + 1)
            (queryNode maxR nodes data hit fuel (i + nodeOffset nd.value) res)
        else leafAppend maxR data (nodeDataCount nd.value) (nodeOffset nd.value) res
      else res

/-- The index: node array plus the int16 triangle-index data array that
follows it. -/
structure BVH where
  nodes : List BVHNode
  data : List ℤ
deriving DecidableEq, Repr

/-- `BVH::vsAABB`: box-overlap query from the root (node 0). -/
def BVH.vsAABB (b : BVH) (maxR fuel : ℕ) (q : AABB) (res : List ℤ) : List ℤ :=
  queryNode maxR b.nodes b.data (fun ab => AABB.vsAABB ab q) fuel 0 res

/-- `BVH::raycastFloor`: vertical-column query from the root (node 0). -/
def BVH.raycastFloor (b : BVH) (maxR fuel : ℕ) (p : IVec3) (res : List ℤ) : List ℤ :=
  queryNode maxR b.nodes b.data (fun ab => AABB.vs2DPointY ab p) fuel 0 res

/-- Leaf ranges stay inside the declared data array (bake-time
well-formedness of the index). -/
def wfLeaves (nodes : List BVHNode) (data : List ℤ) : Prop :=
  ∀ (i : ℤ) (nd : BVHNode), nodeAt nodes i = some nd → nodeDataCount nd.value ≠ 0 →
    0 ≤ nodeOffset nd.value ∧
    nodeOffset nd.value + nodeDataCount nd.value ≤ (data.length : ℤ)

/-- Triangle `t` is listed in a leaf reachable from node `i` within `n`
steps, through ancestors whose AABBs all contain the box `bb` (the
triangle's leaf-level AABB). -/
inductive Covers (nodes : List BVHNode) (data : List ℤ) (bb : AABB) :
    ℕ → ℤ → ℤ → Prop
  | leaf (n : ℕ) (i : ℤ) (nd : BVHNode) (k : ℕ) (t : ℤ)
      (hnode : nodeAt nodes i = some nd)
      (hcont : AABB.contains nd.aabb bb = true)
      (hcnt : nodeDataCount nd.value ≠ 0)
      (hk : k < nodeDataCount nd.value)
      (hdata : dataAt data (nodeOffset nd.value + k) = t) :
      Covers nodes data bb n i t
  | left (n : ℕ) (i : ℤ) (nd : BVHNode) (t : ℤ)
      (hnode : nodeAt nodes i = some nd)
      (hcont : AABB.contains nd.aabb bb = true)
      (hcnt : nodeDataCount nd.value = 0)
      (hchild : Covers nodes data bb n (i + nodeOffset nd.value) t) :
      Covers nodes data bb (n + 1) i t
  | right (n : ℕ) (i : ℤ) (nd : BVHNode) (t : ℤ)
      (hnode : nodeAt nodes i = some nd)
      (hcont : AABB.contains nd.aabb bb = true)
      (hcnt : nodeDataCount nd.value = 0)
      (hchild : Covers nodes data bb n (i + nodeOffset nd.value + 1) t) :
      Covers nodes data bb (n + 1) i t

/-- The brute-force reference scan: all triangle indices whose leaf-level
AABB overlaps the query box. -/
def bruteForceAABB (triCount : ℕ) (triAABB : ℕ → AABB) (q : AABB) : List ℕ :=
  (List.range triCount).filter (fun s => AABB.vsAABB (triAABB s) q)

theorem contains_overlap (a b q : AABB) (hc : AABB.contains a b = true)
    (ho : AABB.vsAABB b q = true) : AABB.vsAABB a q = true := by
  simp only [AABB.contains, AABB.vsAABB, decide_eq_true_eq] at hc ho ⊢
  omega

theorem leafAppend_extend (maxR : ℕ) (data : List ℤ) :
    ∀ (cnt : ℕ) (off : ℤ) (res : List ℤ),
      ∃ ext, leafAppend maxR data cnt off res = res ++ ext := by
  intro cnt
  induction cnt with
  | zero => exact fun off res => ⟨[], by simp [leafAppend]⟩
  | succ n ih =>
    intro off res
    simp only [leafAppend]
    by_cases h : res.length < maxR
    · rw [if_pos h]
      obtain ⟨ext, hext⟩ := ih (off + 1) (res ++ [dataAt data off])
      exact ⟨[dataAt data off] ++ ext, by rw [hext]; simp⟩
    · rw [if_neg h]
      exact ⟨[], by simp⟩

theorem queryNode_extend (maxR : ℕ) (nodes : List BVHNode) (data : List ℤ)
    (hit : AABB → Bool) :
    ∀ (fuel : ℕ) (i : ℤ) (res : List ℤ),
      ∃ ext, queryNode maxR nodes data hit fuel i res = res ++ ext := by
  intro fuel
  induction fuel with
  | zero => exact fun i res => ⟨[], by simp [queryNode]⟩
  | succ f ih =>
    intro i res
    simp only [queryNode]
    cases hnd : nodeAt nodes i with
    | none => exact ⟨[], by simp⟩
    | some nd =>
      dsimp only
      by_cases hhit : hit nd.aabb
      · rw [if_pos hhit]
        by_cases hcnt : nodeDataCount nd.value = 0
        · rw [if_pos hcnt]
          obtain ⟨e1, he1⟩ := ih (i + nodeOffset nd.value) res
          obtain ⟨e2, he2⟩ := ih (i + nodeOffset nd.value + 1) (res ++ e1)
          exact ⟨e1 ++ e2, by rw [he1, he2, List.append_assoc]⟩
        · rw [if_neg hcnt]
          exact leafAppend_extend maxR data _ _ res
      · rw [if_neg hhit]
        exact ⟨[], by simp⟩

theorem queryNode_mem_mono (maxR : ℕ) (nodes : List BVHNode) (data : List ℤ)
    (hit : AABB → Bool) (fuel : ℕ) (i : ℤ) (res : List ℤ) (t : ℤ)
    (h : t ∈ res) : t ∈ queryNode maxR nodes data hit fuel i res := by
  obtain ⟨ext, hext⟩ := queryNode_extend maxR nodes data hit fuel i res
  rw [hext]
  exact List.mem_append_left _ h

theorem queryNode_length_le (maxR : ℕ) (nodes : List BVHNode) (data : List ℤ)
    (hit : AABB → Bool) (fuel : ℕ) (i : ℤ) (res : List ℤ) :
    res.length ≤ (queryNode maxR nodes data hit fuel i res).length := by
  obtain ⟨ext, hext⟩ := queryNode_extend maxR nodes data hit fuel i res
  rw [hext]
  simp

theorem leafAppend_mem (maxR : ℕ) (data : List ℤ) :
    ∀ (cnt : ℕ) (off : ℤ) (res : List ℤ) (k : ℕ), k < cnt →
      (leafAppend maxR data cnt off res).length < maxR →
      dataAt data (off + k) ∈ leafAppend maxR data cnt off res := by
  intro cnt
  induction cnt with
  | zero => exact fun off res k hk => absurd hk (by omega)
  | succ n ih =>
    intro off res k hk hcap
    simp only [leafAppend] at hcap ⊢
    by_cases h : res.length < maxR
    · rw [if_pos h] at hcap ⊢
      cases k with
      | zero =>
        obtain ⟨ext, hext⟩ := leafAppend_extend maxR data n (off + 1)
          (res ++ [dataAt data off])
        rw [hext]
        simp
      | succ m =>
        rw [show off + ((m + 1 : ℕ) : ℤ) = (off + 1) + (m : ℤ) by push_cast; ring]
        exact ih (off + 1) (res ++ [dataAt data off]) m (by omega) hcap
    · rw [if_neg h] at hcap
      omega

theorem leafAppend_sat (maxR : ℕ) (data : List ℤ) :
    ∀ (cnt : ℕ) (off : ℤ) (res : List ℤ), maxR ≤ res.length →
      leafAppend maxR data cnt off res = res := by
  intro cnt
  cases cnt with
  | zero => exact fun off res _ => by simp [leafAppend]
  | succ n =>
    intro off res h
    simp only [leafAppend]
    rw [if_neg (by omega)]

theorem queryNode_sat (maxR : ℕ) (nodes : List BVHNode) (data : List ℤ)
    (hit : AABB → Bool) :
    ∀ (fuel : ℕ) (i : ℤ) (res : List ℤ), maxR ≤ res.length →
      queryNode maxR nodes data hit fuel i res = res := by
  intro fuel
  induction fuel with
  | zero => exact fun i res _ => by simp [queryNode]
  | succ f ih =>
    intro i res h
    simp only [queryNode]
    cases hnd : nodeAt nodes i with
    | none => rfl
    | some nd =>
      dsimp only
      by_cases hhit : hit nd.aabb
      · rw [if_pos hhit]
        by_cases hcnt : nodeDataCount nd.value = 0
        · rw [if_pos hcnt, ih _ res h, ih _ res h]
        · rw [if_neg hcnt]
          exact leafAppend_sat maxR data _ _ res h
      · rw [if_neg hhit]

theorem leafAppend_capacity (maxR : ℕ) (data : List ℤ) :
    ∀ (cnt : ℕ) (off : ℤ) (res : List ℤ), res.length ≤ maxR →
      (leafAppend maxR data cnt off res).length ≤ maxR := by
  intro cnt
  induction cnt with
  | zero => exact fun off res h => by simpa [leafAppend] using h
  | succ n ih =>
    intro off res h
    simp only [leafAppend]
    by_cases hlt : res.length < maxR
    · rw [if_pos hlt]
      exact ih (off + 1) (res ++ [dataAt data off]) (by simp; omega)
    · rw [if_neg hlt]
      exact h

theorem queryNode_capacity (maxR : ℕ) (nodes : List BVHNode) (data : List ℤ)
    (hit : AABB → Bool) :
    ∀ (fuel : ℕ) (i : ℤ) (res : List ℤ), res.length ≤ maxR →
      (queryNode maxR nodes data hit fuel i res).length ≤ maxR := by
  intro fuel
  induction fuel with
  | zero => exact fun i res h => by simpa [queryNode] using h
  | succ f ih =>
    intro i res h
    simp only [queryNode]
    cases hnd : nodeAt nodes i with
    | none => exact h
    | some nd =>
      dsimp only
      by_cases hhit : hit nd.aabb
      · rw [if_pos hhit]
        by_cases hcnt : nodeDataCount nd.value = 0
        · rw [if_pos hcnt]
          exact ih _ _ (ih _ res h)
        · rw [if_neg hcnt]
          exact leafAppend_capacity maxR data _ _ res h
      · rw [if_neg hhit]
        exact h

theorem dataAt_append (data junk : List ℤ) (j : ℤ) (h0 : 0 ≤ j)
    (hj : j < (data.length : ℤ)) : dataAt (data ++ junk) j = dataAt data j := by
  rw [dataAt, dataAt, if_neg (by omega), if_neg (by omega)]
  have hlt : j.toNat < data.length := by omega
  rw [List.get?_eq_getElem?, List.get?_eq_getElem?, List.getElem?_append_left hlt]

theorem leafAppend_append (maxR : ℕ) (data junk : List ℤ) :
    ∀ (cnt : ℕ) (off : ℤ) (res : List ℤ), 0 ≤ off →
      off + cnt ≤ (data.length : ℤ) →
      leafAppend maxR (data ++ junk) cnt off res = leafAppend maxR data cnt off res := by
  intro cnt
  induction cnt with
  | zero => intro off res _ _; simp [leafAppend]
  | succ n ih =>
    intro off res h0 hle
    simp only [leafAppend]
    rw [dataAt_append data junk off h0 (by push_cast at hle ⊢; omega)]
    by_cases h : res.length < maxR
    · rw [if_pos h, if_pos h]
      exact ih (off + 1) (res ++ [dataAt data off]) (by omega)
        (by push_cast at hle ⊢; omega)
    · rw [if_neg h, if_neg h]

theorem queryNode_append (maxR : ℕ) (nodes : List BVHNode) (data junk : List ℤ)
    (hit : AABB → Bool) (hwf : wfLeaves nodes data) :
    ∀ (fuel : ℕ) (i : ℤ) (res : List ℤ),
      queryNode maxR nodes (data ++ junk) hit fuel i res =
        queryNode maxR nodes data hit fuel i res := by
  intro fuel
  induction fuel with
  | zero => intro i res; simp [queryNode]
  | succ f ih =>
    intro i res
    simp only [queryNode]
    cases hnd : nodeAt nodes i with
    | none => rfl
    | some nd =>
      dsimp only
      by_cases hhit : hit nd.aabb
      · rw [if_pos hhit, if_pos hhit]
        by_cases hcnt : nodeDataCount nd.value = 0
        · rw [if_pos hcnt, if_pos hcnt, ih, ih]
        · rw [if_neg hcnt, if_neg hcnt]
          obtain ⟨h0, hle⟩ := hwf i nd hnd hcnt
          exact leafAppend_append maxR data junk _ _ res h0 hle
      · rw [if_neg hhit, if_neg hhit]

theorem queryNode_covers (maxR : ℕ) (nodes : List BVHNode) (data : List ℤ)
    (hit : AABB → Bool) (bb : AABB)
    (hmono : ∀ ab : AABB, AABB.contains ab bb = true → hit ab = true)
    (n : ℕ) (i : ℤ) (t : ℤ) (hcov : Covers nodes data bb n i t) :
    ∀ (fuel : ℕ) (res : List ℤ), n < fuel →
      (queryNode maxR nodes data hit fuel i res).length < maxR →
      t ∈ queryNode maxR nodes data hit fuel i res := by
  induction hcov with
  | leaf n i nd k t hnode hcont hcnt hk hdata =>
    intro fuel res hn hcap
    obtain ⟨f, rfl⟩ : ∃ f, fuel = f + 1 := ⟨fuel - 1, by omega⟩
    simp only [queryNode, hnode] at hcap ⊢
    rw [if_pos (hmono _ hcont), if_neg hcnt] at hcap ⊢
    rw [← hdata]
    exact leafAppend_mem maxR data _ _ res k hk hcap
  | left n i nd t hnode hcont hcnt hchild ih =>
    intro fuel res hn hcap
    obtain ⟨f, rfl⟩ : ∃ f, fuel = f + 1 := ⟨fuel - 1, by omega⟩
    simp only [queryNode, hnode] at hcap ⊢
    rw [if_pos (hmono _ hcont), if_pos hcnt] at hcap ⊢
    have hinner : (queryNode maxR nodes data hit f (i + nodeOffset nd.value) res).length
        < maxR := by
      have := queryNode_length_le maxR nodes data hit f (i + nodeOffset nd.value + 1)
        (queryNode maxR nodes data hit f (i + nodeOffset nd.value) res)
      omega
    exact queryNode_mem_mono maxR nodes data hit f _ _ t (ih f res (by omega) hinner)
  | right n i nd t hnode hcont hcnt hchild ih =>
    intro fuel res hn hcap
    obtain ⟨f, rfl⟩ : ∃ f, fuel = f + 1 := ⟨fuel - 1, by omega⟩
    simp only [queryNode, hnode] at hcap ⊢
    rw [if_pos (hmono _ hcont), if_pos hcnt] at hcap ⊢
    exact ih f _ (by omega) hcap

/-! ### Attachment tracker (attach.cpp) -/

/-- A 3×3 matrix as three rows. -/
structure Mat3 where
  r0 : Vec3
  r1 : Vec3
  r2 : Vec3
deriving DecidableEq, Repr

def Mat3.mulVec (m : Mat3) (v : Vec3) : Vec3 :=
  ⟨Vec3.dot m.r0 v, Vec3.dot m.r1 v, Vec3.dot m.r2 v⟩

def idMat3 : Mat3 := ⟨⟨1, 0, 0⟩, ⟨0, 1, 0⟩, ⟨0, 0, 1⟩⟩

/-- Modelled from the spec (the implementations of
`Object::outOfLocalSpace` / `intoLocalSpace` are not among the sources):
a quaternion+position+scale instance transform, kept as an invertible
linear part (rotation·scale, with its inverse) plus a position;
`outOfLocalSpace` applies it, `intoLocalSpace` inverts it. -/
structure XForm where
  lin : Mat3
  linInv : Mat3
  pos : Vec3
deriving DecidableEq, Repr

def outOfLocalSpace (T : XForm) (p : Vec3) : Vec3 := T.lin.mulVec p + T.pos

def intoLocalSpace (T : XForm) (p : Vec3) : Vec3 := T.linInv.mulVec (p - T.pos)

/-- The private state of `Coll::Attach` (attach.h). -/
structure Attach where
  refPos : Vec3 := Vec3.zero
  refPosLocal : Vec3 := Vec3.zero
  refId : ℕ := 0
  lastRefId : ℕ := 0
deriving DecidableEq, Repr

/-- `Attach::setReference`: remembers the owning object's id (0 = none). -/
def Attach.setReference (a : Attach) (meshInstId : Option ℕ) : Attach :=
  { a with refId := meshInstId.getD 0 }

/-- `Attach::update` from attach.cpp.  `lookup` models
`SceneManager::getCurrent().getObjectById(refId)` followed by the
`CollMesh` component fetch, collapsed to the mesh instance's transform;
returns the reported displacement together with the new state. -/
def Attach.update (lookup : ℕ → Option XForm) (a : Attach) (ownPos : Vec3) :
    Vec3 × Attach :=
  match lookup a.refId with
  | some T =>
    let diff :=
      if a.lastRefId = a.refId then a.refPos - outOfLocalSpace T a.refPosLocal
      else Vec3.zero
    (diff, { refPos := ownPos, refPosLocal := intoLocalSpace T ownPos,
             refId := 0, lastRefId := a.refId })
  | none => (Vec3.zero, { a with lastRefId := 0, refId := 0 })

/-! ### Concrete fixtures used by counterexamples and witnesses -/

/-- Unit box at the origin. -/
def c1Box : BCS := ⟨⟨0, 0, 0⟩, 0, ⟨1, 1, 1⟩⟩

/-- A triangle that is separated from `c1Box` precisely along the SAT
axis `unitAxis1 × edge2`, the one cross-product axis the source never
tests. -/
def c1Tri : Triangle := ⟨⟨3/4, 0, 7/4⟩, ⟨2, 0, 2⟩, ⟨2, 0, 1/2⟩, ⟨0, 1, 0⟩⟩

/-- A zero-area triangle (all three vertices coincide). -/
def c8Tri : Triangle := ⟨⟨0, 0, 0⟩, ⟨0, 0, 0⟩, ⟨0, 0, 0⟩, ⟨0, 1, 0⟩⟩

/-- Sphere of radius 2 one unit above the origin. -/
def c8Sphere : BCS := ⟨⟨0, 1, 0⟩, 2, ⟨0, 0, 0⟩⟩

/-- Identity transform at the origin. -/
def c3T1 : XForm := ⟨idMat3, idMat3, ⟨0, 0, 0⟩⟩

/-- `c3T1` translated by d = (1, 0, 0). -/
def c3T2 : XForm := ⟨idMat3, idMat3, ⟨1, 0, 0⟩⟩

def c3Lookup1 : ℕ → Option XForm := fun i => if i = 1 then some c3T1 else none

def c3Lookup2 : ℕ → Option XForm := fun i => if i = 1 then some c3T2 else none

/-- First tracker update: reference 1 set, transform `c3T1`. -/
def c3Step1 : Vec3 × Attach :=
  Attach.update c3Lookup1 (Attach.setReference {} (some 1)) ⟨0, 0, 0⟩

/-- Second tracker update: reference 1 set again, transform translated
by (1, 0, 0). -/
def c3Step2 : Vec3 × Attach :=
  Attach.update c3Lookup2 (Attach.setReference c3Step1.2 (some 1)) ⟨0, 0, 0⟩

/-- A triangle whose face normal has y-component 0 (a vertical wall in
the z = 0 plane). -/
def c10Tri : Triangle := ⟨⟨0, 0, 0⟩, ⟨2, 0, 0⟩, ⟨1, 5, 0⟩, ⟨0, 0, 1⟩⟩

def c7AABBBig : AABB := ⟨⟨-10, -10, -10⟩, ⟨10, 10, 10⟩⟩

def c7AABBSmall : AABB := ⟨⟨0, 0, 0⟩, ⟨1, 1, 1⟩⟩

/-- A single leaf node (count 1, data offset 0). -/
def c7Node : BVHNode := ⟨1, c7AABBBig⟩

/-- One-leaf index listing triangle 0. -/
def c7BVH : BVH := ⟨[c7Node], [0]⟩

theorem c7_wfLeaves : wfLeaves [c7Node] [0] := by
  intro i nd h hcnt
  rw [nodeAt] at h
  by_cases hi : i < 0
  · rw [if_pos hi] at h
    exact Option.noConfusion h
  · rw [if_neg hi] at h
    cases hto : i.toNat with
    | zero =>
      rw [hto] at h
      simp only [List.get?] at h
      injection h with h'
      subst h'
      decide
    | succ m =>
      rw [hto] at h
      simp only [List.get?] at h
      exact Option.noConfusion h

/-! ### Claims about the narrow-phase resolver -/

/-- C1: the box-vs-triangle SAT does not consider each of the 9 box-axis ×
triangle-edge cross products exactly once: it tests `unitAxis2 × edge2`
twice and never tests `unitAxis1 × edge2`.  On `c1Box`/`c1Tri` the
omitted axis shows non-positive overlap (−5/8 ≤ 0, and the axis is not
degenerate), so the claimed 13-axis SAT must report no collision, yet
`triVsBox` reports a contact. -/
theorem triVsBox_missing_sat_axis :
    triVsBox c1Box c1Tri =
      { penetration := ⟨1/4, 0, 0⟩, floorWallAngle := ⟨0, 1, 0⟩, collCount := 1 } ∧
    satAxisOverlap c1Box c1Tri.v0 c1Tri.v1 c1Tri.v2
        (Vec3.cross unitAxis1 (c1Tri.v0 - c1Tri.v2)) ≤ 0 ∧
    Vec3.cross unitAxis1 (c1Tri.v0 - c1Tri.v2) ≠ Vec3.zero := by
  refine ⟨?_, ?_, ?_⟩ <;>
    norm_num [triVsBox, satFold, triVsBoxAxes, satTestAxis, satAxisSkipped, satAxisOverlap,
      c1Box, c1Tri, Vec3.dot, Vec3.cross, Vec3.sub_def, Vec3.mulV, Vec3.abs3, Vec3.sign3,
      Vec3.min3, Vec3.max3, Vec3.smul, unitAxis0, unitAxis1, unitAxis2, Vec3.zero,
      min_def, max_def, abs, Vec3.mk.injEq]

/-- C2 (counterexample): for a sphere center behind the plane at signed
distance −3/5, the effective distance compared against the radius is 6/5
— double the absolute plane distance — and not half of it (3/10). -/
theorem planeDistEff_not_half :
    planeDistEff (-(3/5)) = 6/5 ∧ planeDistEff (-(3/5)) ≠ (3/5) / 2 := by
  have h : planeDistEff (-(3/5)) = 6/5 := by
    rw [planeDistEff, if_pos (by norm_num : (-(3/5) : ℚ) < 0),
      show (-(3/5) : ℚ) * 2 = -(6/5) by norm_num, abs_neg,
      abs_of_pos (by norm_num : (0 : ℚ) < 6/5)]
  exact ⟨h, by rw [h]; norm_num⟩

/-- C2 (amended): behind the plane the effective distance is twice the
absolute plane distance, so the face proximity test passes exactly when
the center is less than half a radius behind the plane. -/
theorem planeDistEff_backface (d r : ℚ) (hd : d < 0) :
    planeDistEff d = 2 * |d| ∧ (planeDistEff d < r ↔ |d| < r / 2) := by
  have h2 : planeDistEff d = 2 * |d| := by
    rw [planeDistEff, if_pos hd, abs_mul]
    norm_num [mul_comm]
  refine ⟨h2, ?_⟩
  rw [h2]
  constructor <;> intro h <;> linarith

/-- Witness for `planeDistEff_backface` at d = −1, r = 3. -/
theorem planeDistEff_backface_witness :
    planeDistEff (-1) = 2 * |(-1 : ℚ)| ∧ (planeDistEff (-1) < 3 ↔ |(-1 : ℚ)| < 3 / 2) :=
  planeDistEff_backface (-1) 3 (by norm_num)

/-- C5: a sphere whose center lies exactly on the triangle's plane
(signed distance 0), with positive radius and the center's barycentric
coordinates inside the triangle, yields a face hit: count 1, contact
normal = face normal, penetration = face normal scaled by (signed plane
distance − radius); its squared magnitude is radius² when the stored
face normal is unit length. -/
theorem triVsSphere_on_plane (sphere : BCS) (face : Triangle)
    (hd : pointPlaneDistance sphere.center face.v0 face.normal = 0)
    (hr : 0 < sphere.radius)
    (hx : (getTriBaryCoord sphere.center face.v0 face.v1 face.v2).x ≥ 0)
    (hy : (getTriBaryCoord sphere.center face.v0 face.v1 face.v2).y ≥ 0)
    (hxy : (getTriBaryCoord sphere.center face.v0 face.v1 face.v2).x +
      (getTriBaryCoord sphere.center face.v0 face.v1 face.v2).y ≤ 1)
    (hunit : Vec3.dot face.normal face.normal = 1) :
    triVsSphere sphere face =
      { penetration := Vec3.smul face.normal
          (pointPlaneDistance sphere.center face.v0 face.normal - sphere.radius),
        floorWallAngle := face.normal,
        collCount := 1 } ∧
    Vec3.dot (triVsSphere sphere face).penetration
        (triVsSphere sphere face).penetration = sphere.radius * sphere.radius := by
  have heff : planeDistEff (pointPlaneDistance sphere.center face.v0 face.normal) = 0 := by
    rw [hd]; rfl
  have heq : triVsSphere sphere face =
      { penetration := Vec3.smul face.normal
          (pointPlaneDistance sphere.center face.v0 face.normal - sphere.radius),
        floorWallAngle := face.normal,
        collCount := 1 } := by
    rw [triVsSphere]
    rw [if_pos ⟨by rw [heff]; exact hr, hx, hy, hxy⟩]
  refine ⟨heq, ?_⟩
  rw [heq, hd]
  simp only [Vec3.smul, Vec3.dot] at hunit ⊢
  linear_combination (sphere.radius * sphere.radius) * hunit

/-- Witness for `triVsSphere_on_plane`: sphere of radius 1 centered at
(1/2, 0, 1/2) on the plane of the triangle (0,0,0),(0,0,2),(2,0,0). -/
theorem triVsSphere_on_plane_witness :
    triVsSphere ⟨⟨1/2, 0, 1/2⟩, 1, ⟨0, 0, 0⟩⟩ ⟨⟨0, 0, 0⟩, ⟨0, 0, 2⟩, ⟨2, 0, 0⟩, ⟨0, 1, 0⟩⟩ =
      { penetration := Vec3.smul ⟨0, 1, 0⟩
          (pointPlaneDistance ⟨1/2, 0, 1/2⟩ ⟨0, 0, 0⟩ ⟨0, 1, 0⟩ - 1),
        floorWallAngle := ⟨0, 1, 0⟩,
        collCount := 1 } ∧
    Vec3.dot (triVsSphere ⟨⟨1/2, 0, 1/2⟩, 1, ⟨0, 0, 0⟩⟩
          ⟨⟨0, 0, 0⟩, ⟨0, 0, 2⟩, ⟨2, 0, 0⟩, ⟨0, 1, 0⟩⟩).penetration
        (triVsSphere ⟨⟨1/2, 0, 1/2⟩, 1, ⟨0, 0, 0⟩⟩
          ⟨⟨0, 0, 0⟩, ⟨0, 0, 2⟩, ⟨2, 0, 0⟩, ⟨0, 1, 0⟩⟩).penetration = 1 * 1 :=
  triVsSphere_on_plane ⟨⟨1/2, 0, 1/2⟩, 1, ⟨0, 0, 0⟩⟩
    ⟨⟨0, 0, 0⟩, ⟨0, 0, 2⟩, ⟨2, 0, 0⟩, ⟨0, 1, 0⟩⟩
    (by norm_num [pointPlaneDistance, Vec3.sub_def, Vec3.dot])
    (by norm_num)
    (by norm_num [getTriBaryCoord, Vec3.sub_def, Vec3.dot])
    (by norm_num [getTriBaryCoord, Vec3.sub_def, Vec3.dot])
    (by norm_num [getTriBaryCoord, Vec3.sub_def, Vec3.dot])
    (by norm_num [Vec3.dot])

/-- C8: with a zero barycentric denominator the face test reports "not in
triangle" without dividing (`getTriBaryCoord` returns (−1,−1,−1) before
the division is reached), `triVsSphere` degrades to the edge test, and
the edge test can still produce a contact (witnessed by the coincident
triangle `c8Tri` and sphere `c8Sphere`). -/
theorem triVsSphere_degenerate_fallback :
    (∀ p a b c : Vec3, baryDenom a b c = 0 → getTriBaryCoord p a b c = ⟨-1, -1, -1⟩) ∧
    (∀ (sphere : BCS) (face : Triangle), baryDenom face.v0 face.v1 face.v2 = 0 →
      triVsSphere sphere face = triVsSphereEdge sphere face) ∧
    (baryDenom c8Tri.v0 c8Tri.v1 c8Tri.v2 = 0 ∧
      triVsSphere c8Sphere c8Tri =
        { penetration := ⟨0, -1, 0⟩, floorWallAngle := ⟨0, 1, 0⟩, collCount := 1 }) := by
  have hbary : ∀ p a b c : Vec3, baryDenom a b c = 0 →
      getTriBaryCoord p a b c = ⟨-1, -1, -1⟩ := by
    intro p a b c h
    rw [getTriBaryCoord]
    rw [baryDenom] at h
    rw [if_pos h]
  refine ⟨hbary, ?_,
    by norm_num [baryDenom, c8Tri, Vec3.sub_def, Vec3.dot],
    by norm_num [triVsSphere, triVsSphereEdge, planeDistEff, pointPlaneDistance,
      getTriBaryCoord, baryDenom, closestPointOnLine, clamp, MIN_PENETRATION,
      Vec3.len, Vec3.distance2, sqrtQ_zero, sqrtQ_one, c8Sphere, c8Tri,
      Vec3.sub_def, Vec3.add_def, Vec3.dot, Vec3.smul, Vec3.divS, Vec3.zero,
      min_def, max_def, Vec3.mk.injEq, CollInfo.mk.injEq]⟩
  intro sphere face h
  rw [triVsSphere]
  rw [hbary sphere.center face.v0 face.v1 face.v2 h]
  rw [if_neg]
  rintro ⟨-, hx, -, -⟩
  exact absurd hx (by norm_num)

/-- Witness for `triVsSphere_degenerate_fallback` (first two conjuncts
have hypotheses): instantiated at the coincident triangle `c8Tri`. -/
theorem triVsSphere_degenerate_fallback_witness :
    getTriBaryCoord ⟨0, 1, 0⟩ ⟨0, 0, 0⟩ ⟨0, 0, 0⟩ ⟨0, 0, 0⟩ = ⟨-1, -1, -1⟩ ∧
    triVsSphere c8Sphere c8Tri = triVsSphereEdge c8Sphere c8Tri :=
  ⟨triVsSphere_degenerate_fallback.1 ⟨0, 1, 0⟩ ⟨0, 0, 0⟩ ⟨0, 0, 0⟩ ⟨0, 0, 0⟩
      (by norm_num [baryDenom, Vec3.sub_def, Vec3.dot]),
   triVsSphere_degenerate_fallback.2.1 c8Sphere c8Tri
      (by norm_num [baryDenom, c8Tri, Vec3.sub_def, Vec3.dot])⟩

/-- C9 (counterexample): the axis (0, −1, 1) is not the zero vector, yet
`testAxis` excludes it from the projection/overlap test (its components
sum to 0). -/
theorem satAxisSkipped_nonzero :
    satAxisSkipped ⟨0, -1, 1⟩ = true ∧ (⟨0, -1, 1⟩ : Vec3) ≠ Vec3.zero := by
  constructor <;> norm_num [satAxisSkipped, Vec3.zero, Vec3.mk.injEq]

/-- C9 (amended): an axis is excluded from the projection/overlap test
exactly when its component sum x + y + z is 0 (which the zero vector
satisfies, but so do some non-zero axes); an excluded axis leaves the
running minimum-overlap state untouched and cannot cause a separation
exit. -/
theorem satAxisSkipped_iff (a : Vec3) (box : BCS) (w0 w1 w2 : Vec3) (st : ℚ × Vec3) :
    (satAxisSkipped a = true ↔ a.x + a.y + a.z = 0) ∧
    (a.x + a.y + a.z = 0 → satTestAxis box w0 w1 w2 a st = some st) := by
  constructor
  · simp [satAxisSkipped]
  · intro h
    rw [satTestAxis, if_pos]
    simp [satAxisSkipped, h]

/-- Witness for `satAxisSkipped_iff` at the axis (0, −1, 1). -/
theorem satAxisSkipped_iff_witness :
    (satAxisSkipped ⟨0, -1, 1⟩ = true ↔ (0 : ℚ) + -1 + 1 = 0) ∧
    ((0 : ℚ) + -1 + 1 = 0 →
      satTestAxis c1Box ⟨1, 0, 0⟩ ⟨0, 1, 0⟩ ⟨0, 0, 1⟩ ⟨0, -1, 1⟩ (999999, Vec3.zero) =
        some (999999, Vec3.zero)) :=
  satAxisSkipped_iff ⟨0, -1, 1⟩ c1Box ⟨1, 0, 0⟩ ⟨0, 1, 0⟩ ⟨0, 0, 1⟩ (999999, Vec3.zero)

/-- C3 (counterexample): with the tracked mesh instance translated by
d = (1, 0, 0) between two updates that both have reference 1 set, the
second update reports (−1, 0, 0) — the negation of d, not d. -/
theorem attach_update_reports_neg_d :
    c3Step2.1 = ⟨-1, 0, 0⟩ ∧ c3Step2.1 ≠ ⟨1, 0, 0⟩ := by
  have h : c3Step2.1 = ⟨-1, 0, 0⟩ := by
    norm_num [c3Step2, c3Step1, c3Lookup1, c3Lookup2, c3T1, c3T2, Attach.update,
      Attach.setReference, outOfLocalSpace, intoLocalSpace, Mat3.mulVec, idMat3,
      Vec3.dot, Vec3.sub_def, Vec3.add_def, Vec3.zero, Vec3.mk.injEq]
  exact ⟨h, by rw [h]; norm_num [Vec3.mk.injEq]⟩

/-- C3 (amended): two consecutive updates with the same reference set
before each call, with the referenced transform translated by d in
between, report a displacement of −d on the second call; an update
whose reference id differs from the previous call's, or whose reference
cannot be resolved, reports exactly zero. -/
theorem attach_update_displacement
    (F G : Mat3) (pos d ownPos1 ownPos2 : Vec3) (rid : ℕ)
    (lookup1 lookup2 : ℕ → Option XForm) (a : Attach)
    (hFG : ∀ v, F.mulVec (G.mulVec v) = v)
    (h1 : lookup1 rid = some ⟨F, G, pos⟩)
    (h2 : lookup2 rid = some ⟨F, G, pos + d⟩) :
    (Attach.update lookup2
        (Attach.setReference
          (Attach.update lookup1 (Attach.setReference a (some rid)) ownPos1).2
          (some rid)) ownPos2).1 = -d ∧
    (∀ (lookup : ℕ → Option XForm) (b : Attach) (p : Vec3),
      b.lastRefId ≠ b.refId → (Attach.update lookup b p).1 = Vec3.zero) ∧
    (∀ (lookup : ℕ → Option XForm) (b : Attach) (p : Vec3),
      lookup b.refId = none → (Attach.update lookup b p).1 = Vec3.zero) := by
  refine ⟨?_, ?_, ?_⟩
  · simp only [Attach.setReference, Attach.update, Option.getD, h1, h2]
    simp only [intoLocalSpace, outOfLocalSpace]
    rw [if_pos trivial]
    rw [hFG (ownPos1 - pos)]
    cases d
    cases ownPos1
    cases pos
    simp [Vec3.sub_def, Vec3.add_def, Vec3.neg_def, Vec3.mk.injEq]
    refine ⟨by ring, by ring, by ring⟩
  · intro lookup b p h
    rw [Attach.update]
    cases hl : lookup b.refId
    · rfl
    · simp only [if_neg h]
  · intro lookup b p h
    rw [Attach.update, h]

/-- Witness for `attach_update_displacement`: identity transforms,
d = (1, 0, 0), reference id 1, fresh tracker. -/
theorem attach_update_displacement_witness :
    (Attach.update c3Lookup2
        (Attach.setReference
          (Attach.update c3Lookup1 (Attach.setReference {} (some 1)) ⟨0, 0, 0⟩).2
          (some 1)) ⟨0, 0, 0⟩).1 = -(⟨1, 0, 0⟩ : Vec3) ∧
    (∀ (lookup : ℕ → Option XForm) (b : Attach) (p : Vec3),
      b.lastRefId ≠ b.refId → (Attach.update lookup b p).1 = Vec3.zero) ∧
    (∀ (lookup : ℕ → Option XForm) (b : Attach) (p : Vec3),
      lookup b.refId = none → (Attach.update lookup b p).1 = Vec3.zero) :=
  attach_update_displacement idMat3 idMat3 ⟨0, 0, 0⟩ ⟨1, 0, 0⟩ ⟨0, 0, 0⟩ ⟨0, 0, 0⟩ 1
    c3Lookup1 c3Lookup2 {}
    (fun v => by
      cases v
      simp [Mat3.mulVec, idMat3, Vec3.dot])
    (by norm_num [c3Lookup1, c3T1])
    (by norm_num [c3Lookup2, c3T2, Vec3.add_def, Vec3.mk.injEq])

/-- C6: with a non-vertical face normal, the floor ray hits exactly when
the origin's (x,z) passes the 2D point-in-triangle test and the plane
height there is not above the origin; the hit is that interpolated
height with the face normal, and the returned height genuinely solves
the plane equation. -/
theorem vsFloorRay_spec (rayStart : Vec3) (face : Triangle)
    (hny : face.normal.y ≠ 0) :
    (vsFloorRay rayStart face =
      if pointVsTriangle2D ⟨rayStart.x, rayStart.z⟩ ⟨face.v0.x, face.v0.z⟩
          ⟨face.v1.x, face.v1.z⟩ ⟨face.v2.x, face.v2.z⟩ = true ∧
          planeHeightAt face.normal face.v0 rayStart.x rayStart.z ≤ rayStart.y
      then { hitPos := ⟨rayStart.x,
               planeHeightAt face.normal face.v0 rayStart.x rayStart.z, rayStart.z⟩,
             normal := face.normal }
      else {}) ∧
    Vec3.dot face.normal
      ((⟨rayStart.x, planeHeightAt face.normal face.v0 rayStart.x rayStart.z,
          rayStart.z⟩ : Vec3) - face.v0) = 0 := by
  have hhit : getTrianglePosFromXZ rayStart face.v0 face.normal =
      ⟨rayStart.x, planeHeightAt face.normal face.v0 rayStart.x rayStart.z,
        rayStart.z⟩ := by
    simp only [getTrianglePosFromXZ, planeHeightAt, Vec3.add_def, Vec3.dot,
      Vec3.mk.injEq]
    refine ⟨by ring, ?_, by ring⟩
    field_simp
    ring
  constructor
  · simp only [vsFloorRay, hhit]
    by_cases hin : pointVsTriangle2D ⟨rayStart.x, rayStart.z⟩ ⟨face.v0.x, face.v0.z⟩
        ⟨face.v1.x, face.v1.z⟩ ⟨face.v2.x, face.v2.z⟩ = true
    · by_cases hy : planeHeightAt face.normal face.v0 rayStart.x rayStart.z ≤ rayStart.y
      · rw [if_neg (by simp [hin]), if_neg (by simp [not_lt.mpr hy]),
          if_pos ⟨hin, hy⟩]
      · rw [if_neg (by simp [hin]), if_pos (by simpa using not_le.mp hy),
          if_neg (by simp [hin, hy])]
    · rw [if_pos (by simpa using hin), if_neg (by simp [hin])]
  · simp only [Vec3.sub_def, Vec3.dot, planeHeightAt]
    field_simp
    ring

/-- Witness for `vsFloorRay_spec`: ray from (1/2, 5, 1/2) above the
triangle (0,0,0),(0,0,2),(2,0,0). -/
theorem vsFloorRay_spec_witness :
    (vsFloorRay ⟨1/2, 5, 1/2⟩ ⟨⟨0, 0, 0⟩, ⟨0, 0, 2⟩, ⟨2, 0, 0⟩, ⟨0, 1, 0⟩⟩ =
      if pointVsTriangle2D ⟨1/2, 1/2⟩ ⟨0, 0⟩ ⟨0, 2⟩ ⟨2, 0⟩ = true ∧
          planeHeightAt ⟨0, 1, 0⟩ ⟨0, 0, 0⟩ (1/2) (1/2) ≤ 5
      then { hitPos := ⟨1/2, planeHeightAt ⟨0, 1, 0⟩ ⟨0, 0, 0⟩ (1/2) (1/2), 1/2⟩,
             normal := ⟨0, 1, 0⟩ }
      else {}) ∧
    Vec3.dot ⟨0, 1, 0⟩
      ((⟨1/2, planeHeightAt ⟨0, 1, 0⟩ ⟨0, 0, 0⟩ (1/2) (1/2), 1/2⟩ : Vec3) -
        ⟨0, 0, 0⟩) = 0 :=
  vsFloorRay_spec ⟨1/2, 5, 1/2⟩ ⟨⟨0, 0, 0⟩, ⟨0, 0, 2⟩, ⟨2, 0, 0⟩, ⟨0, 1, 0⟩⟩
    (by norm_num)

/-- C10: when the face normal's y-component is non-zero the computed hit
point genuinely solves the plane equation; but the division by
`normal.y` is unguarded and reachable with a vertical triangle: the
degenerate 2D projection of `c10Tri` passes the sign-agreement test at
(5, 0), so `vsFloorRay` divides by zero there (with the rational
convention x / 0 = 0 it then fabricates a hit at the ray origin). -/
theorem getTrianglePosFromXZ_div_guard :
    (∀ pos vert normal : Vec3, normal.y ≠ 0 →
      Vec3.dot normal (getTrianglePosFromXZ pos vert normal - vert) = 0) ∧
    (c10Tri.normal.y = 0 ∧
      pointVsTriangle2D ⟨5, 0⟩ ⟨c10Tri.v0.x, c10Tri.v0.z⟩
        ⟨c10Tri.v1.x, c10Tri.v1.z⟩ ⟨c10Tri.v2.x, c10Tri.v2.z⟩ = true ∧
      vsFloorRay ⟨5, 3, 0⟩ c10Tri =
        { hitPos := ⟨5, 3, 0⟩, normal := ⟨0, 0, 1⟩ }) := by
  refine ⟨?_, by norm_num [c10Tri], ?_, ?_⟩
  · intro pos vert normal hny
    simp only [getTrianglePosFromXZ, Vec3.add_def, Vec3.sub_def, Vec3.dot]
    field_simp
    ring
  · norm_num [pointVsTriangle2D, Vec2.dot, c10Tri]
  · norm_num [vsFloorRay, pointVsTriangle2D, Vec2.dot, getTrianglePosFromXZ,
      c10Tri, Vec3.dot, Vec3.add_def, Vec3.mk.injEq, RaycastRes.mk.injEq]

/-- Witness for `getTrianglePosFromXZ_div_guard` (the first conjunct has
a hypothesis): instantiated at normal (0, 1, 0). -/
theorem getTrianglePosFromXZ_div_guard_witness :
    Vec3.dot ⟨0, 1, 0⟩
      (getTrianglePosFromXZ ⟨1/2, 5, 1/2⟩ ⟨0, 0, 0⟩ ⟨0, 1, 0⟩ - ⟨0, 0, 0⟩) = 0 :=
  getTrianglePosFromXZ_div_guard.1 ⟨1/2, 5, 1/2⟩ ⟨0, 0, 0⟩ ⟨0, 1, 0⟩ (by norm_num)

/-- C4: for a well-formed index (every triangle of the mesh is listed in
a leaf reachable from the root through ancestors whose AABBs contain the
triangle's leaf-level AABB, within the traversal depth), every triangle
index reported by the brute-force triangle-AABB overlap scan appears in
the box-overlap query's result, provided the final result stays below
the buffer capacity (no false negatives). -/
theorem bvh_vsAABB_no_false_negative
    (b : BVH) (maxR fuel triCount : ℕ) (triAABB : ℕ → AABB) (q : AABB)
    (res : List ℤ)
    (hwf : ∀ s : ℕ, s < triCount →
      ∃ n : ℕ, n < fuel ∧ Covers b.nodes b.data (triAABB s) n 0 (s : ℤ))
    (hcap : (b.vsAABB maxR fuel q res).length < maxR) :
    ∀ t ∈ bruteForceAABB triCount triAABB q, (t : ℤ) ∈ b.vsAABB maxR fuel q res := by
  intro t ht
  rw [bruteForceAABB, List.mem_filter, List.mem_range] at ht
  obtain ⟨htr, hov⟩ := ht
  obtain ⟨n, hn, hcov⟩ := hwf t htr
  exact queryNode_covers maxR b.nodes b.data _ (triAABB t)
    (fun ab hc => contains_overlap ab (triAABB t) q hc hov) n 0 (t : ℤ) hcov
    fuel res hn hcap

/-- Witness for `bvh_vsAABB_no_false_negative`: the one-leaf index
`c7BVH`, whose single triangle 0 is found both by brute force and by the
query. -/
theorem bvh_vsAABB_no_false_negative_witness :
    ((0 : ℕ) : ℤ) ∈ BVH.vsAABB c7BVH 4 1 c7AABBSmall [] :=
  bvh_vsAABB_no_false_negative c7BVH 4 1 1 (fun _ => c7AABBSmall) c7AABBSmall []
    (fun s hs => ⟨0, by omega, by
      have hs0 : s = 0 := by omega
      subst hs0
      exact Covers.leaf 0 0 c7Node 0 0 (by decide) (by decide) (by decide)
        (by decide) (by decide)⟩)
    (by decide) 0 (by decide)

/-- C7: both geometry-index queries keep the result count within the
fixed capacity, read triangle indices only through the leaf ranges (for
a well-formed index the result is unchanged if arbitrary junk follows
the declared data array), and once the buffer is full they drop all
further matches without growing the buffer. -/
theorem bvh_query_safety :
    (∀ (b : BVH) (maxR fuel : ℕ) (q : AABB) (res : List ℤ), res.length ≤ maxR →
      (b.vsAABB maxR fuel q res).length ≤ maxR) ∧
    (∀ (b : BVH) (maxR fuel : ℕ) (p : IVec3) (res : List ℤ), res.length ≤ maxR →
      (b.raycastFloor maxR fuel p res).length ≤ maxR) ∧
    (∀ (nodes : List BVHNode) (data junk : List ℤ) (maxR fuel : ℕ) (q : AABB)
      (res : List ℤ), wfLeaves nodes data →
      BVH.vsAABB ⟨nodes, data ++ junk⟩ maxR fuel q res =
        BVH.vsAABB ⟨nodes, data⟩ maxR fuel q res) ∧
    (∀ (nodes : List BVHNode) (data junk : List ℤ) (maxR fuel : ℕ) (p : IVec3)
      (res : List ℤ), wfLeaves nodes data →
      BVH.raycastFloor ⟨nodes, data ++ junk⟩ maxR fuel p res =
        BVH.raycastFloor ⟨nodes, data⟩ maxR fuel p res) ∧
    (∀ (b : BVH) (maxR fuel : ℕ) (q : AABB) (res : List ℤ), maxR ≤ res.length →
      b.vsAABB maxR fuel q res = res) ∧
    (∀ (b : BVH) (maxR fuel : ℕ) (p : IVec3) (res : List ℤ), maxR ≤ res.length →
      b.raycastFloor maxR fuel p res = res) := by
  refine ⟨?_, ?_, ?_, ?_, ?_, ?_⟩
  · exact fun b maxR fuel q res h =>
      queryNode_capacity maxR b.nodes b.data _ fuel 0 res h
  · exact fun b maxR fuel p res h =>
      queryNode_capacity maxR b.nodes b.data _ fuel 0 res h
  · exact fun nodes data junk maxR fuel q res hwf =>
      queryNode_append maxR nodes data junk _ hwf fuel 0 res
  · exact fun nodes data junk maxR fuel p res hwf =>
      queryNode_append maxR nodes data junk _ hwf fuel 0 res
  · exact fun b maxR fuel q res h =>
      queryNode_sat maxR b.nodes b.data _ fuel 0 res h
  · exact fun b maxR fuel p res h =>
      queryNode_sat maxR b.nodes b.data _ fuel 0 res h

/-- Witness for `bvh_query_safety`: all six parts instantiated on the
one-leaf index `c7BVH`. -/
theorem bvh_query_safety_witness :
    ((BVH.vsAABB c7BVH 4 1 c7AABBSmall []).length ≤ 4) ∧
    ((BVH.raycastFloor c7BVH 4 1 ⟨0, 0, 0⟩ []).length ≤ 4) ∧
    (BVH.vsAABB ⟨[c7Node], [0] ++ [9]⟩ 4 1 c7AABBSmall [] =
      BVH.vsAABB ⟨[c7Node], [0]⟩ 4 1 c7AABBSmall []) ∧
    (BVH.raycastFloor ⟨[c7Node], [0] ++ [9]⟩ 4 1 ⟨0, 0, 0⟩ [] =
      BVH.raycastFloor ⟨[c7Node], [0]⟩ 4 1 ⟨0, 0, 0⟩ []) ∧
    (BVH.vsAABB c7BVH 1 1 c7AABBSmall [5] = [5]) ∧
    (BVH.raycastFloor c7BVH 1 1 ⟨0, 0, 0⟩ [5] = [5]) :=
  ⟨bvh_query_safety.1 c7BVH 4 1 c7AABBSmall [] (by decide),
   bvh_query_safety.2.1 c7BVH 4 1 ⟨0, 0, 0⟩ [] (by decide),
   bvh_query_safety.2.2.1 [c7Node] [0] [9] 4 1 c7AABBSmall [] c7_wfLeaves,
   bvh_query_safety.2.2.2.1 [c7Node] [0] [9] 4 1 ⟨0, 0, 0⟩ [] c7_wfLeaves,
   bvh_query_safety.2.2.2.2.1 c7BVH 1 1 c7AABBSmall [5] (by decide),
   bvh_query_safety.2.2.2.2.2 c7BVH 1 1 ⟨0, 0, 0⟩ [5] (by decide)⟩

end P64
